import Mathlib

/-!
Verification of the page-identity, checksum-policy, buddy-size and latch
primitives of `storage/innobase/include/buf0types.h`.

Machine integers are modelled as `Nat` with explicit truncation where the
C++ arithmetic wraps: `u32 n = n % 2^32` for `uint32_t` / `unsigned int`
results and `u64 n = n % 2^64` for `uint64_t` results.  A value of type
`uint64_t` is carried as a `Nat` together with the bound `< 2^64` as a
hypothesis where a statement needs it.
-/

namespace BufTypes

/-- Truncation to 32 bits: the value of a C++ `uint32_t` computation. -/
def u32 (n : Nat) : Nat := n % 2^32

/-- Truncation to 64 bits: the value of a C++ `uint64_t` computation. -/
def u64 (n : Nat) : Nat := n % 2^64

/-- `enum srv_checksum_algorithm_t` from buf0types.h. -/
inductive srv_checksum_algorithm_t where
  | SRV_CHECKSUM_ALGORITHM_CRC32
  | SRV_CHECKSUM_ALGORITHM_STRICT_CRC32
  | SRV_CHECKSUM_ALGORITHM_FULL_CRC32
  | SRV_CHECKSUM_ALGORITHM_STRICT_FULL_CRC32
deriving DecidableEq, BEq, Repr

/-- The numeric value of each enumerator (C++ assigns 0,1,2,3 in order). -/
def srv_checksum_algorithm_t.toUlint : srv_checksum_algorithm_t → Nat
  | .SRV_CHECKSUM_ALGORITHM_CRC32 => 0
  | .SRV_CHECKSUM_ALGORITHM_STRICT_CRC32 => 1
  | .SRV_CHECKSUM_ALGORITHM_FULL_CRC32 => 2
  | .SRV_CHECKSUM_ALGORITHM_STRICT_FULL_CRC32 => 3

/-- `is_checksum_strict(srv_checksum_algorithm_t)`:
`algo == SRV_CHECKSUM_ALGORITHM_STRICT_CRC32`. -/
def is_checksum_strict (algo : srv_checksum_algorithm_t) : Bool :=
  algo == .SRV_CHECKSUM_ALGORITHM_STRICT_CRC32

/-- `is_checksum_strict(ulint)`: the overload comparing a numeric `ulint`
against the enumerator, which converts to its numeric value. -/
def is_checksum_strict_ulint (algo : Nat) : Bool :=
  algo == srv_checksum_algorithm_t.SRV_CHECKSUM_ALGORITHM_STRICT_CRC32.toUlint

/-- Modelled from the spec: `UNIV_ZIP_SIZE_SHIFT_MIN` is defined in univ.i,
which is not among the sources here; the spec fixes the minimum buddy shift
(low_shift) at 9 (512-byte smallest buddy page). -/
def UNIV_ZIP_SIZE_SHIFT_MIN : Nat := 9

/-- Modelled from the spec: the smallest supported page-size shift
(univ.i is not among the sources); 4 KiB pages, shift 12. -/
def UNIV_PAGE_SIZE_SHIFT_MIN : Nat := 12

/-- Modelled from the spec: the largest supported page-size shift
(univ.i is not among the sources); 64 KiB pages, shift 16. -/
def UNIV_PAGE_SIZE_SHIFT_MAX : Nat := 16

/-- `#define BUF_BUDDY_LOW_SHIFT UNIV_ZIP_SIZE_SHIFT_MIN`. -/
def BUF_BUDDY_LOW_SHIFT : Nat := UNIV_ZIP_SIZE_SHIFT_MIN

/-- `#define BUF_BUDDY_LOW (1U << BUF_BUDDY_LOW_SHIFT)`. -/
def BUF_BUDDY_LOW : Nat := u32 (1 <<< BUF_BUDDY_LOW_SHIFT)

/-- `#define BUF_BUDDY_SIZES (srv_page_size_shift - BUF_BUDDY_LOW_SHIFT)`,
parameterised by the runtime configuration value `srv_page_size_shift`. -/
def BUF_BUDDY_SIZES (srv_page_size_shift : Nat) : Nat :=
  srv_page_size_shift - BUF_BUDDY_LOW_SHIFT

/-- `#define BUF_BUDDY_SIZES_MAX (UNIV_PAGE_SIZE_SHIFT_MAX - BUF_BUDDY_LOW_SHIFT)`. -/
def BUF_BUDDY_SIZES_MAX : Nat := UNIV_PAGE_SIZE_SHIFT_MAX - BUF_BUDDY_LOW_SHIFT

/-- `#define BUF_BUDDY_HIGH (BUF_BUDDY_LOW << BUF_BUDDY_SIZES)`. -/
def BUF_BUDDY_HIGH (srv_page_size_shift : Nat) : Nat :=
  u32 (BUF_BUDDY_LOW <<< BUF_BUDDY_SIZES srv_page_size_shift)

/-- `class page_id_t`: the packed 64-bit page identifier `m_id`. -/
structure page_id_t where
  m_id : Nat
deriving DecidableEq, Repr

/-- `page_id_t(ulint space, uint32_t page_no)`:
`m_id(uint64_t{space} << 32 | page_no)`.  The shift is 64-bit arithmetic. -/
def page_id_t.make (space page_no : Nat) : page_id_t :=
  ⟨u64 (space <<< 32) ||| page_no⟩

/-- `page_id_t(uint64_t id) : m_id(id)`. -/
def page_id_t.of_uint64 (id : Nat) : page_id_t := ⟨u64 id⟩

/-- `space()`: `static_cast<uint32_t>(m_id >> 32)`. -/
def page_id_t.space (id : page_id_t) : Nat := u32 (id.m_id >>> 32)

/-- `page_no()`: `static_cast<uint32_t>(m_id)`. -/
def page_id_t.page_no (id : page_id_t) : Nat := u32 id.m_id

/-- `fold()`: `(space() << 20) + space() + page_no()`, evaluated in
32-bit unsigned arithmetic (`uint32_t` operands) before widening to `ulint`. -/
def page_id_t.fold (id : page_id_t) : Nat :=
  u32 (u32 (u32 (id.space <<< 20) + id.space) + id.page_no)

/-- `operator<`: `m_id < rhs.m_id`. -/
def page_id_t.lt (a b : page_id_t) : Bool := a.m_id < b.m_id

/-- `operator++`: `ut_ad(page_no() < 0xFFFFFFFFU); m_id++`.  The `ut_ad`
contract is modelled as the guard of an `Option`: violating it yields
`none` instead of silently wrapping into the tablespace bits. -/
def page_id_t.next (id : page_id_t) : Option page_id_t :=
  if id.page_no < 0xFFFFFFFF then some ⟨u64 (id.m_id + 1)⟩ else none

/-- `operator--`: `ut_ad(page_no()); m_id--`.  The `ut_ad` contract is
modelled as the guard of an `Option`: violating it yields `none`. -/
def page_id_t.prev (id : page_id_t) : Option page_id_t :=
  if id.page_no ≠ 0 then some ⟨id.m_id - 1⟩ else none

/-- `set_page_no(uint32_t page_no)`:
`m_id = (m_id & ~uint64_t{0} << 32) | page_no` — `~` binds tighter than
`<<`, so the mask is `(2^64 - 1) << 32` truncated to 64 bits. -/
def page_id_t.set_page_no (id : page_id_t) (page_no : Nat) : page_id_t :=
  ⟨(id.m_id &&& u64 ((2^64 - 1) <<< 32)) ||| page_no⟩

/-- `raw()`: `return m_id`. -/
def page_id_t.raw (id : page_id_t) : Nat := id.m_id

/-- Modelled from the spec: the state of the `rw_lock` base class of
`page_hash_latch` (sux_lock.h is not among the sources here) — a count of
shared holders plus at most one shared-exclusive and one exclusive holder. -/
structure LatchState where
  s_holders : Nat
  sx_held : Bool
  x_held : Bool
deriving DecidableEq, Repr

/-- Modelled from the spec: an S request is grantable exactly when no
exclusive holder is active (S is compatible with S and with SX). -/
def can_grant_s (st : LatchState) : Bool := !st.x_held

/-- Modelled from the spec: an SX request is grantable exactly when no SX
and no X holder is active (SX is compatible with S only). -/
def can_grant_sx (st : LatchState) : Bool := !st.sx_held && !st.x_held

/-- Modelled from the spec: an X request is grantable exactly when no
holder of any mode is active. -/
def can_grant_x (st : LatchState) : Bool :=
  st.s_holders == 0 && !st.sx_held && !st.x_held

/-- Modelled from the spec: the effect of a granted `read_lock()` — one
more shared holder. -/
def read_lock (st : LatchState) : LatchState :=
  ⟨st.s_holders + 1, st.sx_held, st.x_held⟩

/-- Modelled from the spec: the effect of a granted `write_lock()` — the
exclusive slot becomes held. -/
def write_lock (st : LatchState) : LatchState :=
  ⟨st.s_holders, st.sx_held, true⟩

/-- Modelled from the spec: the effect of `read_unlock()`. -/
def read_unlock (st : LatchState) : LatchState :=
  ⟨st.s_holders - 1, st.sx_held, st.x_held⟩

/-- Modelled from the spec: the effect of `write_unlock()`. -/
def write_unlock (st : LatchState) : LatchState :=
  ⟨st.s_holders, st.sx_held, false⟩

/-- `page_hash_latch::acquire<bool exclusive>()`:
`if (exclusive) write_lock(); else read_lock();`. -/
def acquire (exclusive : Bool) (st : LatchState) : LatchState :=
  if exclusive then write_lock st else read_lock st

/-- `page_hash_latch::release<bool exclusive>()`:
`if (exclusive) write_unlock(); else read_unlock();`. -/
def release (exclusive : Bool) (st : LatchState) : LatchState :=
  if exclusive then write_unlock st else read_unlock st

/-! ### Helper lemmas -/

/-- The packed value built by the two-argument constructor, in plain
arithmetic: high 32 bits the tablespace, low 32 bits the page number. -/
theorem make_m_id (s p : Nat) (hs : s < 2^32) (hp : p < 2^32) :
    (page_id_t.make s p).m_id = s * 2^32 + p := by
  show u64 (s <<< 32) ||| p = s * 2^32 + p
  rw [Nat.shiftLeft_eq, u64, Nat.mod_eq_of_lt (by omega)]
  rw [Nat.mul_comm s (2^32), ← Nat.mul_add_lt_is_or hp (a := s), Nat.mul_comm]

theorem make_space (s p : Nat) (hs : s < 2^32) (hp : p < 2^32) :
    (page_id_t.make s p).space = s := by
  rw [page_id_t.space, make_m_id s p hs hp, Nat.shiftRight_eq_div_pow, u32]
  omega

theorem make_page_no (s p : Nat) (hs : s < 2^32) (hp : p < 2^32) :
    (page_id_t.make s p).page_no = p := by
  rw [page_id_t.page_no, make_m_id s p hs hp, u32]
  omega

/-- The `~uint64_t{0} << 32` mask, evaluated. -/
theorem mask_value : u64 ((2^64 - 1) <<< 32) = (2^32 - 1) * 2^32 := by
  rw [Nat.shiftLeft_eq, u64]
  norm_num

/-- Conjunction with the high-half mask keeps exactly the high 32 bits. -/
theorem land_high_mask (m : Nat) (h64 : m < 2^64) :
    m &&& (2^32 - 1) * 2^32 = (m >>> 32) <<< 32 := by
  apply Nat.eq_of_testBit_eq
  intro i
  have hmask : (2^32 - 1) * 2^32 = (2^32 - 1) <<< 32 := by
    rw [Nat.shiftLeft_eq]
  rw [hmask, Nat.testBit_and, Nat.testBit_shiftLeft, Nat.testBit_shiftLeft,
    Nat.testBit_shiftRight, Nat.testBit_two_pow_sub_one]
  by_cases h32 : 32 ≤ i
  · by_cases h64i : i < 64
    · have : 32 + (i - 32) = i := by omega
      simp [h32, this, show i - 32 < 32 by omega]
    · have hbit : m.testBit i = false :=
        Nat.testBit_lt_two_pow (Nat.lt_of_lt_of_le h64 (Nat.pow_le_pow_right (by omega) (by omega)))
      have hbit2 : m.testBit (32 + (i - 32)) = false :=
        Nat.testBit_lt_two_pow (Nat.lt_of_lt_of_le h64 (Nat.pow_le_pow_right (by omega) (by omega)))
      simp [hbit, hbit2]
  · simp [h32]

/-! ### The claims -/

/-- C1. Round-trip of the two-argument constructor: for every tablespace id
and page number in `[0, 2^32 - 1]`, `make(space, page_no)` reads back the
same tablespace id through `space()` and the same page number through
`page_no()`. -/
theorem make_roundtrip (space page_no : Nat)
    (hs : space < 2^32) (hp : page_no < 2^32) :
    (page_id_t.make space page_no).space = space ∧
    (page_id_t.make space page_no).page_no = page_no :=
  ⟨make_space space page_no hs hp, make_page_no space page_no hs hp⟩

theorem make_roundtrip_witness :
    (page_id_t.make 3 100).space = 3 ∧ (page_id_t.make 3 100).page_no = 100 :=
  make_roundtrip 3 100 (by norm_num) (by norm_num)

/-- C2. `fold()` equals `(tablespace << 20) + tablespace + page_no` with the
32-bit overflow made explicit: the whole expression is reduced modulo
`2^32`, because `space() << 20` and the additions are `uint32_t`
arithmetic.  In particular `make(3, 100).fold() = (3 << 20) + 3 + 100`,
where no truncation occurs. -/
theorem fold_spec (space page_no : Nat)
    (hs : space < 2^32) (hp : page_no < 2^32) :
    (page_id_t.make space page_no).fold =
      ((space <<< 20) + space + page_no) % 2^32 ∧
    (page_id_t.make 3 100).fold = (3 <<< 20) + 3 + 100 := by
  constructor
  · rw [page_id_t.fold, make_space space page_no hs hp,
      make_page_no space page_no hs hp, u32, u32, u32, Nat.shiftLeft_eq]
    omega
  · rfl

theorem fold_spec_witness :
    (page_id_t.make 3 100).fold = ((3 <<< 20) + 3 + 100) % 2^32 ∧
    (page_id_t.make 3 100).fold = (3 <<< 20) + 3 + 100 :=
  fold_spec 3 100 (by norm_num) (by norm_num)

/-- C3. `operator<` is lexicographic on (tablespace, page number): for
identifiers built from in-range components, `make sA pA < make sB pB`
holds exactly when `sA < sB`, or `sA = sB` and `pA < pB`.  In particular a
smaller tablespace id dominates every page number, and within one
tablespace identifiers are ordered by page number. -/
theorem lt_lex (sA pA sB pB : Nat) (hsA : sA < 2^32) (hpA : pA < 2^32)
    (hsB : sB < 2^32) (hpB : pB < 2^32) :
    ((page_id_t.make sA pA).lt (page_id_t.make sB pB) = true ↔
      sA < sB ∨ (sA = sB ∧ pA < pB)) := by
  rw [page_id_t.lt, make_m_id sA pA hsA hpA, make_m_id sB pB hsB hpB,
    decide_eq_true_eq]
  constructor
  · intro h
    by_cases hss : sA < sB
    · exact Or.inl hss
    · right
      constructor <;> omega
  · intro h
    rcases h with h | ⟨rfl, h⟩ <;> omega

theorem lt_lex_witness :
    (page_id_t.make 3 4000000000).lt (page_id_t.make 4 0) = true ↔
      3 < 4 ∨ (3 = 4 ∧ 4000000000 < 0) :=
  lt_lex 3 4000000000 4 0 (by norm_num) (by norm_num) (by norm_num) (by norm_num)

/-- C4. `next()` then `prev()` returns the original identifier whenever the
page number is strictly below `0xFFFFFFFF`, and the tablespace id is
unchanged by `next()`; `next()` on `page_no = 0xFFFFFFFF` fails its
contract (`none`), `prev()` on `page_no = 0` fails its contract (`none`):
there is no silent wraparound of the page number. -/
theorem next_prev_spec (id : page_id_t) (h64 : id.m_id < 2^64) :
    (id.page_no < 0xFFFFFFFF →
      id.next.bind page_id_t.prev = some id ∧
      ∀ j, id.next = some j → j.space = id.space) ∧
    (id.page_no = 0xFFFFFFFF → id.next = none) ∧
    (id.page_no = 0 → id.prev = none) := by
  obtain ⟨m⟩ := id
  have h64m : m < 2^64 := h64
  refine ⟨?_, ?_, ?_⟩
  · intro hlt
    have hltm : m % 2^32 < 0xFFFFFFFF := hlt
    have hm1 : m + 1 < 2^64 := by omega
    have hnext : (⟨m⟩ : page_id_t).next = some ⟨m + 1⟩ := by
      simp only [page_id_t.next, if_pos hlt, u64]
      rw [Nat.mod_eq_of_lt hm1]
    have hprev : (⟨m + 1⟩ : page_id_t).prev = some ⟨m⟩ := by
      have hpn : (⟨m + 1⟩ : page_id_t).page_no ≠ 0 := by
        show (m + 1) % 2^32 ≠ 0
        omega
      simp only [page_id_t.prev, if_pos hpn, Nat.add_sub_cancel]
    constructor
    · rw [hnext]
      simpa using hprev
    · intro j hj
      rw [hnext] at hj
      cases hj
      show u32 ((m + 1) >>> 32) = u32 (m >>> 32)
      rw [u32, u32, Nat.shiftRight_eq_div_pow, Nat.shiftRight_eq_div_pow]
      omega
  · intro heq
    have heqm : m % 2^32 = 0xFFFFFFFF := heq
    simp only [page_id_t.next]
    rw [if_neg (by show ¬ (m % 2^32 < 0xFFFFFFFF); omega)]
  · intro heq
    have heqm : m % 2^32 = 0 := heq
    simp only [page_id_t.prev]
    rw [if_neg (by show ¬ (m % 2^32 ≠ 0); omega)]

theorem next_prev_spec_witness :
    (page_id_t.make 5 10).next.bind page_id_t.prev =
      some (page_id_t.make 5 10) :=
  ((next_prev_spec (page_id_t.make 5 10) (by decide)).1 (by decide)).1

/-- C5. `is_checksum_strict` is true for `STRICT_CRC32` and only for it:
false for `CRC32`, `FULL_CRC32` and `STRICT_FULL_CRC32`, and the `ulint`
overload agrees with the enum overload on every enumerator value. -/
theorem is_checksum_strict_spec :
    is_checksum_strict .SRV_CHECKSUM_ALGORITHM_STRICT_CRC32 = true ∧
    is_checksum_strict .SRV_CHECKSUM_ALGORITHM_CRC32 = false ∧
    is_checksum_strict .SRV_CHECKSUM_ALGORITHM_FULL_CRC32 = false ∧
    is_checksum_strict .SRV_CHECKSUM_ALGORITHM_STRICT_FULL_CRC32 = false ∧
    (∀ a : srv_checksum_algorithm_t,
      is_checksum_strict_ulint a.toUlint = is_checksum_strict a) := by
  refine ⟨rfl, rfl, rfl, rfl, ?_⟩
  intro a
  cases a <;> rfl

/-- C6. The buddy size-class constants: `BUF_BUDDY_SIZES` is the page-size
shift minus the low shift, `BUF_BUDDY_HIGH` is `BUF_BUDDY_LOW` shifted by
`BUF_BUDDY_SIZES`, and `BUF_BUDDY_HIGH` equals the configured page size
`2^shift` for every supported page-size shift (12..16); in particular for
shift 14 with low shift 9, `BUF_BUDDY_SIZES = 5` and
`BUF_BUDDY_HIGH = 16384`. -/
theorem buddy_spec :
    (∀ shift < UNIV_PAGE_SIZE_SHIFT_MAX + 1, UNIV_PAGE_SIZE_SHIFT_MIN ≤ shift →
      BUF_BUDDY_SIZES shift = shift - BUF_BUDDY_LOW_SHIFT ∧
      BUF_BUDDY_HIGH shift = u32 (BUF_BUDDY_LOW <<< BUF_BUDDY_SIZES shift) ∧
      BUF_BUDDY_HIGH shift = 2^shift) ∧
    BUF_BUDDY_LOW_SHIFT = 9 ∧
    BUF_BUDDY_SIZES 14 = 5 ∧
    BUF_BUDDY_HIGH 14 = 16384 := by
  decide

/-- C7. Latch mode compatibility, on the grant relation modelled from the
spec: an S request succeeds regardless of how many S holders are active
(so concurrent S holders never block each other) as long as no X holder
exists; an X request is grantable exactly when no S, SX or X holder
remains, and while X is held nothing else is grantable (exclusivity);
while one SX holder is active, further SX and X requests are refused but S
requests still succeed. -/
theorem latch_compat_spec :
    (∀ n sx, can_grant_s ⟨n, sx, false⟩ = true) ∧
    (∀ st : LatchState, can_grant_x st = true ↔
      st.s_holders = 0 ∧ st.sx_held = false ∧ st.x_held = false) ∧
    (∀ st : LatchState, st.x_held = true →
      can_grant_s st = false ∧ can_grant_sx st = false ∧
      can_grant_x st = false) ∧
    (∀ st : LatchState, st.sx_held = true → st.x_held = false →
      can_grant_sx st = false ∧ can_grant_x st = false ∧
      can_grant_s st = true) := by
  refine ⟨fun n sx => rfl, ?_, ?_, ?_⟩
  · intro st
    simp [can_grant_x, and_assoc]
  · intro st hx
    simp [can_grant_s, can_grant_sx, can_grant_x, hx]
  · intro st hsx hx
    simp [can_grant_s, can_grant_sx, can_grant_x, hsx, hx]

/-- C8. The `raw()` / `page_id_t(uint64_t)` pair is a lossless round-trip:
rebuilding an identifier from its raw packed value yields an identifier
equal to the original, with the same tablespace id and page number. -/
theorem raw_roundtrip (id : page_id_t) (h64 : id.m_id < 2^64) :
    page_id_t.of_uint64 id.raw = id ∧
    (page_id_t.of_uint64 id.raw).space = id.space ∧
    (page_id_t.of_uint64 id.raw).page_no = id.page_no := by
  obtain ⟨m⟩ := id
  have h : page_id_t.of_uint64 (page_id_t.raw ⟨m⟩) = ⟨m⟩ := by
    simp only [page_id_t.of_uint64, page_id_t.raw, u64]
    rw [Nat.mod_eq_of_lt h64]
  exact ⟨h, by rw [h], by rw [h]⟩

theorem raw_roundtrip_witness :
    page_id_t.of_uint64 (page_id_t.make 5 10).raw = page_id_t.make 5 10 :=
  (raw_roundtrip (page_id_t.make 5 10) (by decide)).1

/-- C9. The mode-parameterized entry points dispatch to the single-mode
operations: `acquire<true>` is `write_lock`, `acquire<false>` is
`read_lock`, `release<true>` is `write_unlock`, `release<false>` is
`read_unlock`, on every latch state. -/
theorem acquire_release_dispatch :
    (∀ st, acquire true st = write_lock st) ∧
    (∀ st, acquire false st = read_lock st) ∧
    (∀ st, release true st = write_unlock st) ∧
    (∀ st, release false st = read_unlock st) :=
  ⟨fun _ => rfl, fun _ => rfl, fun _ => rfl, fun _ => rfl⟩

/-- C10. `set_page_no(p)` sets the page number to exactly `p` and leaves
the tablespace id unchanged, for every identifier and every 32-bit `p`. -/
theorem set_page_no_spec (id : page_id_t) (p : Nat)
    (h64 : id.m_id < 2^64) (hp : p < 2^32) :
    (id.set_page_no p).page_no = p ∧ (id.set_page_no p).space = id.space := by
  obtain ⟨m⟩ := id
  have h64m : m < 2^64 := h64
  have hmask : (page_id_t.set_page_no ⟨m⟩ p).m_id = (m / 2^32) * 2^32 + p := by
    show (m &&& u64 ((2^64 - 1) <<< 32)) ||| p = (m / 2^32) * 2^32 + p
    rw [mask_value, land_high_mask m h64m, Nat.shiftRight_eq_div_pow,
      Nat.shiftLeft_eq, Nat.mul_comm (m / 2^32) (2^32),
      ← Nat.mul_add_lt_is_or hp (a := m / 2^32), Nat.mul_comm]
  constructor
  · show u32 (page_id_t.set_page_no ⟨m⟩ p).m_id = p
    rw [hmask, u32]
    omega
  · show u32 ((page_id_t.set_page_no ⟨m⟩ p).m_id >>> 32) = u32 (m >>> 32)
    rw [hmask, Nat.shiftRight_eq_div_pow, Nat.shiftRight_eq_div_pow, u32, u32]
    omega

theorem set_page_no_spec_witness :
    ((page_id_t.make 5 10).set_page_no 77).page_no = 77 ∧
    ((page_id_t.make 5 10).set_page_no 77).space = (page_id_t.make 5 10).space :=
  set_page_no_spec (page_id_t.make 5 10) 77 (by decide) (by decide)

end BufTypes
